import Mathlib

/-!
Shallow embedding of `src/avPublisherComponent/avPublisher.c` (mangOH Red to
AirVantage telemetry publisher): the per-sensor threshold predicates, the
per-sensor record (batch append) operations, the `Items` sensor registry, and
the sampling / publish-scheduling logic of `SampleTimerHandler`.

Modelling conventions:
* C `double` values are idealised as real numbers (`ℝ`); the threshold
  predicates are stated as propositions over `ℝ`.
* `uint64_t` timestamps are natural numbers; the `uint64_t` subtraction
  `now - t` is embedded as `sub64` (wrap-around subtraction mod `2 ^ 64`).
* External effects whose success or failure is decided outside this
  component (sensor reads, `le_avdata_RecordInt`/`le_avdata_RecordFloat`,
  `le_avdata_PushRecord`) are modelled by outcome oracles supplied as inputs
  to the tick function.
* A C function pointer that may be NULL is modelled as an `Option`.
-/

namespace AvPublisher

/-- The `le_result_t` outcomes this component distinguishes. -/
inductive LeResult
  | LE_OK
  | LE_FAULT
  | LE_OVERFLOW
  | LE_BUSY
  | LE_NOT_FOUND
  deriving DecidableEq

open LeResult

/-- `static const int DelayBetweenReadings = 1;` (seconds, tick period). -/
def DelayBetweenReadings : ℕ := 1

/-- `static const int MaxIntervalBetweenPublish = 120;` (seconds). -/
def MaxIntervalBetweenPublish : ℕ := 120

/-- `static const int MinIntervalBetweenPublish = 10;` (seconds). -/
def MinIntervalBetweenPublish : ℕ := 10

/-- `static const int TimeToStale = 60;` (seconds). -/
def TimeToStale : ℕ := 60

/-- Wrap-around `uint64_t` subtraction `a - b` (timestamps in the source are
`uint64_t` milliseconds since the epoch). For `b ≤ a < 2 ^ 64` this is the
ordinary difference `a - b`. -/
def sub64 (a b : ℕ) : ℕ := (a + 2 ^ 64 - b % 2 ^ 64) % 2 ^ 64

/-- `struct Acceleration`: a 3D acceleration value. -/
structure Acceleration where
  x : ℝ
  y : ℝ
  z : ℝ

/-- `struct Gyro`: a 3D angular velocity value. -/
structure Gyro where
  x : ℝ
  y : ℝ
  z : ℝ

/-- `struct Location3d`: GPS location with accuracies. -/
structure Location3d where
  latitude : ℝ
  longitude : ℝ
  hAccuracy : ℝ
  altitude : ℝ
  vAccuracy : ℝ

/-! ### Threshold (change test) functions, one per sensor quantity.

Each is the body of the corresponding `static bool ...Threshold` function;
the first argument is the last recorded value (`recordedValue`), the second
the most recent reading (`readValue`), as per the declared parameter names. -/

/-- `LightSensorThreshold`: `abs(*v1 - *v2) > 200` on `int32_t` values. -/
def LightSensorThreshold (v1 v2 : ℤ) : Prop := |v1 - v2| > 200

instance (v1 v2 : ℤ) : Decidable (LightSensorThreshold v1 v2) :=
  inferInstanceAs (Decidable (|v1 - v2| > 200))

/-- `PressureSensorThreshold`: `fabs(*v1 - *v2) > 1.0`. -/
def PressureSensorThreshold (v1 v2 : ℝ) : Prop := |v1 - v2| > 1.0

/-- `TemperatureSensorThreshold`: `fabs(*v1 - *v2) > 2.0`. -/
def TemperatureSensorThreshold (v1 v2 : ℝ) : Prop := |v1 - v2| > 2.0

/-- `AccelerometerThreshold`:
`fabs(sqrt(pow(deltaX,2) + pow(deltaY,2) + pow(deltaZ,2))) > 1.0`
with `delta_ = v1->_ - v2->_`. -/
def AccelerometerThreshold (v1 v2 : Acceleration) : Prop :=
  |Real.sqrt ((v1.x - v2.x) ^ 2 + (v1.y - v2.y) ^ 2 + (v1.z - v2.z) ^ 2)| > 1.0

/-- `GyroThreshold`:
`fabs(sqrt(pow(deltaX,2) + pow(deltaY,2) + pow(deltaZ,2))) > (M_PI / 2.0)`
with `delta_ = v1->_ - v2->_`. -/
def GyroThreshold (v1 v2 : Gyro) : Prop :=
  |Real.sqrt ((v1.x - v2.x) ^ 2 + (v1.y - v2.y) ^ 2 + (v1.z - v2.z) ^ 2)| >
    Real.pi / 2

/-- `GpsThreshold`: `fabs(deltaLat) + fabs(deltaLon) > 0.01` with
`deltaLat = v2->latitude - v1->latitude`, `deltaLon = v2->longitude -
v1->longitude`; the `hAccuracy`, `altitude` and `vAccuracy` deltas are
commented out in the source and play no part. -/
def GpsThreshold (v1 v2 : Location3d) : Prop :=
  |v2.latitude - v1.latitude| + |v2.longitude - v1.longitude| > 0.01

/-! ### Change tests as the specification states them (for comparison). -/

/-- Spec table: light level change test is "absolute difference > 200". -/
def specLightLevelChange (a b : ℤ) : Prop := |a - b| > 200

/-- Spec table: barometric pressure change test is "absolute difference > 1.0". -/
def specPressureChange (a b : ℝ) : Prop := |a - b| > 1.0

/-- Spec table: temperature change test is "absolute difference > 2.0". -/
def specTemperatureChange (a b : ℝ) : Prop := |a - b| > 2.0

/-- Spec table: acceleration change test is "Euclidean norm of per-axis
deltas > 1.0". -/
def specAccelerationChange (a b : Acceleration) : Prop :=
  Real.sqrt ((a.x - b.x) ^ 2 + (a.y - b.y) ^ 2 + (a.z - b.z) ^ 2) > 1.0

/-- Spec table: angular velocity change test is "Euclidean norm of per-axis
deltas > pi/2". -/
def specAngularVelocityChange (a b : Gyro) : Prop :=
  Real.sqrt ((a.x - b.x) ^ 2 + (a.y - b.y) ^ 2 + (a.z - b.z) ^ 2) > Real.pi / 2

/-- Spec table: location change test is "abs(delta latitude) +
abs(delta longitude) > 0.01", ignoring altitude and both accuracy fields. -/
def specLocationChange (a b : Location3d) : Prop :=
  |a.latitude - b.latitude| + |a.longitude - b.longitude| > 0.01

/-! ### The `Items` registry (`struct Item Items[]`).

`struct Item` holds function pointers; here each pointer field is an
`Option` over an enumeration of the adapter functions defined in the file,
with `none` standing for a NULL pointer (a member omitted from a C
designated initializer is zero-initialised).  The `lastValueRead` /
`lastValueRecorded` pointers each target one member of the process-wide
`SensorData.read` / `SensorData.recorded` structs; they are modelled by the
`SensorField` the pointer targets. -/

/-- The `read` adapter functions defined in the file. -/
inductive ReadFn
  | LightSensorRead
  | PressureSensorRead
  | TemperatureSensorRead
  | AccelerometerRead
  | GyroRead
  | GpsRead
  deriving DecidableEq

/-- The `thresholdCheck` adapter functions defined in the file. -/
inductive ThresholdFn
  | LightSensorThreshold
  | PressureSensorThreshold
  | TemperatureSensorThreshold
  | AccelerometerThreshold
  | GyroThreshold
  | GpsThreshold
  deriving DecidableEq

/-- The `record` adapter functions defined in the file. -/
inductive RecordFn
  | LightSensorRecord
  | PressureSensorRecord
  | TemperatureSensorRecord
  | AccelerometerRecord
  | GyroRecord
  | GpsRecord
  deriving DecidableEq

/-- The `copyValue` adapter functions defined in the file. -/
inductive CopyFn
  | LightSensorCopyValue
  | PressureSensorCopyValue
  | TemperatureSensorCopyValue
  | AccelerometerCopyValue
  | GyroCopyValue
  | GpsCopyValue
  deriving DecidableEq

/-- Members of `struct SensorReadings` (the targets of the value pointers). -/
inductive SensorField
  | lightLevel
  | pressure
  | temperature
  | acc
  | gyro
  | location
  deriving DecidableEq

/-- `struct Item`: one registry entry (fields in source order). -/
structure Item where
  name : String
  read : Option ReadFn
  thresholdCheck : Option ThresholdFn
  record : Option RecordFn
  copyValue : Option CopyFn
  lastValueRead : SensorField
  lastValueRecorded : SensorField
  lastTimeRecorded : ℕ
  lastTimeRead : ℕ
  deriving DecidableEq

/-- `struct Item Items[]`, entry by entry from the initializer.

The first ("light level") initializer in the source sets `.dhubPath =
"lightLevel"` — a member that `struct Item` does not declare — and sets
neither `.read` nor `.thresholdCheck`, leaving those two function pointers
NULL; that entry is embedded with `read := none` and
`thresholdCheck := none`. -/
def Items : List Item :=
  [ { name := "light level"
      read := none
      thresholdCheck := none
      record := some RecordFn.LightSensorRecord
      copyValue := some CopyFn.LightSensorCopyValue
      lastValueRead := SensorField.lightLevel
      lastValueRecorded := SensorField.lightLevel
      lastTimeRecorded := 0
      lastTimeRead := 0 },
    { name := "pressure"
      read := some ReadFn.PressureSensorRead
      thresholdCheck := some ThresholdFn.PressureSensorThreshold
      record := some RecordFn.PressureSensorRecord
      copyValue := some CopyFn.PressureSensorCopyValue
      lastValueRead := SensorField.pressure
      lastValueRecorded := SensorField.pressure
      lastTimeRecorded := 0
      lastTimeRead := 0 },
    { name := "temperature"
      read := some ReadFn.TemperatureSensorRead
      thresholdCheck := some ThresholdFn.TemperatureSensorThreshold
      record := some RecordFn.TemperatureSensorRecord
      copyValue := some CopyFn.TemperatureSensorCopyValue
      lastValueRead := SensorField.temperature
      lastValueRecorded := SensorField.temperature
      lastTimeRecorded := 0
      lastTimeRead := 0 },
    { name := "accelerometer"
      read := some ReadFn.AccelerometerRead
      thresholdCheck := some ThresholdFn.AccelerometerThreshold
      record := some RecordFn.AccelerometerRecord
      copyValue := some CopyFn.AccelerometerCopyValue
      lastValueRead := SensorField.acc
      lastValueRecorded := SensorField.acc
      lastTimeRecorded := 0
      lastTimeRead := 0 },
    { name := "gyro"
      read := some ReadFn.GyroRead
      thresholdCheck := some ThresholdFn.GyroThreshold
      record := some RecordFn.GyroRecord
      copyValue := some CopyFn.GyroCopyValue
      lastValueRead := SensorField.gyro
      lastValueRecorded := SensorField.gyro
      lastTimeRecorded := 0
      lastTimeRead := 0 },
    { name := "gps"
      read := some ReadFn.GpsRead
      thresholdCheck := some ThresholdFn.GpsThreshold
      record := some RecordFn.GpsRecord
      copyValue := some CopyFn.GpsCopyValue
      lastValueRead := SensorField.location
      lastValueRecorded := SensorField.location
      lastTimeRecorded := 0
      lastTimeRead := 0 } ]

/-! ### Batch append model for the composite `record` operations.

The open batch (`le_avdata_RecordRef_t`) is a list of timestamped path
entries.  Whether a single `le_avdata_RecordFloat` call succeeds is decided
by the external sink; it is modelled by an oracle giving the `le_result_t`
of the k-th append call made by one composite record operation. -/

/-- One timestamped entry of the open batch: path, timestamp, value. -/
abbrev Entry := String × ℕ × ℝ

/-- One `le_avdata_RecordFloat(RecordRef, path, value, timestamp)` call:
the oracle decides the result of call number `k`; on `LE_OK` the entry is
appended to the batch, otherwise the batch is unchanged. -/
def recordFloat (oracle : ℕ → LeResult) (k : ℕ) (batch : List Entry)
    (path : String) (timestamp : ℕ) (value : ℝ) : LeResult × List Entry :=
  (oracle k,
    if oracle k = LE_OK then batch ++ [(path, timestamp, value)] else batch)

/-- `AccelerometerRecord`: appends X, Y, Z (in that order) under
`"MangOH.Sensors.Accelerometer.Acceleration._"` with the placeholder
replaced; a failed append jumps to `done`, returning that error. -/
def AccelerometerRecord (oracle : ℕ → LeResult) (timestamp : ℕ)
    (v : Acceleration) (batch : List Entry) : LeResult × List Entry :=
  let r1 := recordFloat oracle 0 batch
    "MangOH.Sensors.Accelerometer.Acceleration.X" timestamp v.x
  if r1.1 ≠ LE_OK then r1
  else
    let r2 := recordFloat oracle 1 r1.2
      "MangOH.Sensors.Accelerometer.Acceleration.Y" timestamp v.y
    if r2.1 ≠ LE_OK then r2
    else
      recordFloat oracle 2 r2.2
        "MangOH.Sensors.Accelerometer.Acceleration.Z" timestamp v.z

/-- `GyroRecord`: appends X, Y, Z (in that order) under
`"MangOH.Sensors.Accelerometer.Gyro._"` with the placeholder replaced;
a failed append jumps to `done`, returning that error. -/
def GyroRecord (oracle : ℕ → LeResult) (timestamp : ℕ)
    (v : Gyro) (batch : List Entry) : LeResult × List Entry :=
  let r1 := recordFloat oracle 0 batch
    "MangOH.Sensors.Accelerometer.Gyro.X" timestamp v.x
  if r1.1 ≠ LE_OK then r1
  else
    let r2 := recordFloat oracle 1 r1.2
      "MangOH.Sensors.Accelerometer.Gyro.Y" timestamp v.y
    if r2.1 ≠ LE_OK then r2
    else
      recordFloat oracle 2 r2.2
        "MangOH.Sensors.Accelerometer.Gyro.Z" timestamp v.z

/-- `GpsRecord`: appends latitude (`"lwm2m.6.0.0"`), longitude
(`"lwm2m.6.0.1"`), horizontal accuracy (`"lwm2m.6.0.3"`), altitude
(`"lwm2m.6.0.2"`) and vertical accuracy
(`"lwm2m.6.0.MangOH.Sensors.Gps.VerticalAccuracy"`), in that order; a failed
append jumps to `done`, returning that error. -/
def GpsRecord (oracle : ℕ → LeResult) (timestamp : ℕ)
    (v : Location3d) (batch : List Entry) : LeResult × List Entry :=
  let r1 := recordFloat oracle 0 batch "lwm2m.6.0.0" timestamp v.latitude
  if r1.1 ≠ LE_OK then r1
  else
    let r2 := recordFloat oracle 1 r1.2 "lwm2m.6.0.1" timestamp v.longitude
    if r2.1 ≠ LE_OK then r2
    else
      let r3 := recordFloat oracle 2 r2.2 "lwm2m.6.0.3" timestamp v.hAccuracy
      if r3.1 ≠ LE_OK then r3
      else
        let r4 := recordFloat oracle 3 r3.2 "lwm2m.6.0.2" timestamp v.altitude
        if r4.1 ≠ LE_OK then r4
        else
          recordFloat oracle 4 r4.2
            "lwm2m.6.0.MangOH.Sensors.Gps.VerticalAccuracy" timestamp
            v.vAccuracy

/-- Modelled from the spec (section 4.1): appending one entry per sub-field
in a fixed order, where a failure of any append aborts the remaining
sub-fields, surfaces that first error, and never removes entries already
appended.  Used to compare the composite record operations against the
spec's description. -/
def recordSeq (oracle : ℕ → LeResult) (k : ℕ) (entries : List Entry)
    (batch : List Entry) : LeResult × List Entry :=
  match entries with
  | [] => (LE_OK, batch)
  | e :: es =>
    if oracle k = LE_OK then recordSeq oracle (k + 1) es (batch ++ [e])
    else (oracle k, batch)

/-! ### The tick handler (`SampleTimerHandler`).

The per-descriptor state is the four mutable `struct Item` fields; the
value type is a parameter `V` (each descriptor's value type is fixed, and
the scheduler logic is agnostic to it, exactly as the `void *` code is).
The external world of one tick — this tick's read outcome and value, the
results the sink returns for this item's `record` calls, and the item's
`thresholdCheck` function — is bundled in `TickItemInput`.  Record calls
appear in the output as `(timestamp, value)` events so that the claims
about which call is made, and with which timestamp, are statable. -/

/-- The mutable per-item state (the last four fields of `struct Item`). -/
structure ItemSt (V : Type) where
  lastValueRead : V
  lastValueRecorded : V
  lastTimeRecorded : ℕ
  lastTimeRead : ℕ
  deriving DecidableEq

/-- One item's external inputs for one tick: the result of `it->read` and
the value it produces on success, the sink's results for the item's
`it->record` call in the sampling pass and in the staleness sweep, and the
item's `thresholdCheck` function pointer. -/
structure TickItemInput (V : Type) where
  readResult : LeResult
  readValue : V
  recordResult : LeResult
  staleRecordResult : LeResult
  thresholdCheck : V → V → Bool

/-- The body of the sampling `for` loop up to the record attempt
(source lines 394-417): read into `lastValueRead`; on success set
`lastTimeRead = now` and, if `lastTimeRecorded == 0` or the threshold check
passes, call `it->record(RecordRef, now, it->lastValueRead)`; on record
success copy `lastValueRead` into `lastValueRecorded` and set the tick-local
`publish` flag.  (The source does not update `lastTimeRecorded` here.)
Returns the updated item, the `publish` contribution, and the record call
event (timestamp, value), if a call was made. -/
def samplePass (now : ℕ) (inp : TickItemInput V) (it : ItemSt V) :
    ItemSt V × Bool × Option (ℕ × V) :=
  if inp.readResult = LE_OK then
    let itR : ItemSt V := { it with lastValueRead := inp.readValue, lastTimeRead := now }
    if itR.lastTimeRecorded = 0 ∨
        inp.thresholdCheck itR.lastValueRead itR.lastValueRecorded = true then
      if inp.recordResult = LE_OK then
        ({ itR with lastValueRecorded := itR.lastValueRead }, true,
          some (now, itR.lastValueRead))
      else (itR, false, some (now, itR.lastValueRead))
    else (itR, false, none)
  else (it, false, none)

/-- One full iteration of the sampling `for` loop (source lines 392-424):
`samplePass` followed by the max-interval force check
`(now - lastTimeRecorded) > MaxIntervalBetweenPublish * 1000 &&
lastTimeRead > LastTimePublished`, which only turns the `publish` flag on. -/
def sampleItem (now lastTimePublished : ℕ) (inp : TickItemInput V)
    (it : ItemSt V) : ItemSt V × Bool × Option (ℕ × V) :=
  let r := samplePass now inp it
  (r.1,
    r.2.1 ||
      decide (sub64 now r.1.lastTimeRecorded > MaxIntervalBetweenPublish * 1000 ∧
        r.1.lastTimeRead > lastTimePublished),
    r.2.2)

/-- One iteration of the staleness sweep loop (source lines 435-452): if
`(now - lastTimeRecorded) > TimeToStale * 1000` and
`lastTimeRead > lastTimeRecorded`, call
`it->record(RecordRef, it->lastTimeRead, it->lastValueRead)`; on success
copy `lastValueRead` into `lastValueRecorded` and set
`lastTimeRecorded = lastTimeRead`.  Returns the updated item and the record
call event, if a call was made. -/
def staleSweepItem (now : ℕ) (inp : TickItemInput V) (it : ItemSt V) :
    ItemSt V × Option (ℕ × V) :=
  if sub64 now it.lastTimeRecorded > TimeToStale * 1000 ∧
      it.lastTimeRead > it.lastTimeRecorded then
    if inp.staleRecordResult = LE_OK then
      ({ it with lastValueRecorded := it.lastValueRead, lastTimeRecorded := it.lastTimeRead },
        some (it.lastTimeRead, it.lastValueRead))
    else (it, some (it.lastTimeRead, it.lastValueRead))
  else (it, none)

/-- The process-wide publish state: the registry's mutable item states and
the globals `DeferredPublish` and `LastTimePublished`. -/
structure PubState (V : Type) where
  items : List (ItemSt V)
  DeferredPublish : Bool
  LastTimePublished : ℕ
  deriving DecidableEq

/-- The whole sampling `for` loop: one `sampleItem` result per registry
entry. -/
def tickPass (now lastTimePublished : ℕ) (inputs : List (TickItemInput V))
    (items : List (ItemSt V)) : List (ItemSt V × Bool × Option (ℕ × V)) :=
  List.zipWith (fun inp it => sampleItem now lastTimePublished inp it) inputs items

/-- `SampleTimerHandler` for one tick at time `now` (milliseconds):
sampling pass over all items; then, if `publish || DeferredPublish`:
if `(now - LastTimePublished) < MinIntervalBetweenPublish` (note: the
source compares the elapsed milliseconds against the unscaled constant,
with no `* 1000`), set `DeferredPublish = true` and stop; otherwise run
the staleness sweep and `le_avdata_PushRecord` (outcome `pushResult`):
on `LE_OK` set `LastTimePublished = now` and `DeferredPublish = false`,
otherwise leave both unchanged. -/
def SampleTimerHandler (now : ℕ) (inputs : List (TickItemInput V))
    (pushResult : LeResult) (st : PubState V) : PubState V :=
  let pass := tickPass now st.LastTimePublished inputs st.items
  let items1 := pass.map (fun p => p.1)
  let publish := pass.any (fun p => p.2.1)
  if publish || st.DeferredPublish then
    if sub64 now st.LastTimePublished < MinIntervalBetweenPublish then
      { st with items := items1, DeferredPublish := true }
    else
      let items2 := List.zipWith (fun inp it => (staleSweepItem now inp it).1)
        inputs items1
      if pushResult = LE_OK then
        { items := items2, DeferredPublish := false, LastTimePublished := now }
      else
        { st with items := items2 }
  else
    { st with items := items1 }

/-! ## Theorems -/

/-- Squared differences are symmetric (helper). -/
theorem sq_sub_comm (x y : ℝ) : (x - y) ^ 2 = (y - x) ^ 2 := by ring

/-- C8: each per-quantity change test computes exactly the predicate the
spec's table states: light level absolute difference > 200; pressure
absolute difference > 1.0; temperature absolute difference > 2.0;
acceleration Euclidean norm of per-axis deltas > 1.0; angular velocity
Euclidean norm of per-axis deltas > pi/2; location
abs(delta latitude) + abs(delta longitude) > 0.01 ignoring altitude and
both accuracy fields. -/
theorem c8_threshold_predicates :
    (∀ v1 v2 : ℤ, LightSensorThreshold v1 v2 ↔ specLightLevelChange v1 v2) ∧
    (∀ v1 v2 : ℝ, PressureSensorThreshold v1 v2 ↔ specPressureChange v1 v2) ∧
    (∀ v1 v2 : ℝ, TemperatureSensorThreshold v1 v2 ↔ specTemperatureChange v1 v2) ∧
    (∀ v1 v2 : Acceleration,
      AccelerometerThreshold v1 v2 ↔ specAccelerationChange v1 v2) ∧
    (∀ v1 v2 : Gyro, GyroThreshold v1 v2 ↔ specAngularVelocityChange v1 v2) ∧
    (∀ v1 v2 : Location3d, GpsThreshold v1 v2 ↔ specLocationChange v1 v2) := by
  refine ⟨fun v1 v2 => Iff.rfl, fun v1 v2 => Iff.rfl, fun v1 v2 => Iff.rfl,
    ?_, ?_, ?_⟩
  · intro v1 v2
    unfold AccelerometerThreshold specAccelerationChange
    rw [abs_of_nonneg (Real.sqrt_nonneg _)]
  · intro v1 v2
    unfold GyroThreshold specAngularVelocityChange
    rw [abs_of_nonneg (Real.sqrt_nonneg _)]
  · intro v1 v2
    unfold GpsThreshold specLocationChange
    rw [abs_sub_comm v2.latitude v1.latitude,
      abs_sub_comm v2.longitude v1.longitude]

/-- C10: every per-quantity change test is symmetric in its two arguments,
so the sampling pass's swapped call `thresholdCheck(lastValueRead,
lastValueRecorded)` decides the same predicate as
`exceedsThreshold(lastRecorded, lastRead)`. -/
theorem c10_threshold_symmetric :
    (∀ a b : ℤ, LightSensorThreshold a b ↔ LightSensorThreshold b a) ∧
    (∀ a b : ℝ, PressureSensorThreshold a b ↔ PressureSensorThreshold b a) ∧
    (∀ a b : ℝ, TemperatureSensorThreshold a b ↔ TemperatureSensorThreshold b a) ∧
    (∀ a b : Acceleration, AccelerometerThreshold a b ↔ AccelerometerThreshold b a) ∧
    (∀ a b : Gyro, GyroThreshold a b ↔ GyroThreshold b a) ∧
    (∀ a b : Location3d, GpsThreshold a b ↔ GpsThreshold b a) := by
  refine ⟨?_, ?_, ?_, ?_, ?_, ?_⟩
  · intro a b; unfold LightSensorThreshold; rw [abs_sub_comm]
  · intro a b; unfold PressureSensorThreshold; rw [abs_sub_comm]
  · intro a b; unfold TemperatureSensorThreshold; rw [abs_sub_comm]
  · intro a b
    unfold AccelerometerThreshold
    rw [sq_sub_comm a.x b.x, sq_sub_comm a.y b.y, sq_sub_comm a.z b.z]
  · intro a b
    unfold GyroThreshold
    rw [sq_sub_comm a.x b.x, sq_sub_comm a.y b.y, sq_sub_comm a.z b.z]
  · intro a b
    unfold GpsThreshold
    rw [abs_sub_comm b.latitude a.latitude, abs_sub_comm b.longitude a.longitude]

/-- C4: the claim fails on the code: the "light level" entry of the `Items`
registry supplies neither its `read` nor its `thresholdCheck` operation
(both function pointers stay NULL, while the unused `LightSensorRead` and
`LightSensorThreshold` adapters exist in the file, and the initializer
names a `dhubPath` member that `struct Item` does not declare); every other
entry supplies all four operations.  The tick would therefore call a NULL
`read` pointer on the first registry entry. -/
theorem c4_light_item_null_ops :
    (∃ it ∈ Items, it.name = "light level" ∧ it.read = none ∧
      it.thresholdCheck = none) ∧
    ∀ it ∈ Items, it.name ≠ "light level" →
      it.read.isSome ∧ it.thresholdCheck.isSome ∧ it.record.isSome ∧
        it.copyValue.isSome := by
  decide

/-- C2: the claim is right and the code is wrong: in the sampling pass, on
a successful read (at `now = 1000`) and a successful record, the code
copies `lastValueRead` into `lastValueRecorded` and sets the tick-local
publish flag, but it never executes `lastTimeRecorded = now` — the
resulting `lastTimeRecorded` is still `0`, not `1000` (only the staleness
sweep ever assigns `lastTimeRecorded`). -/
theorem c2_sampling_pass_keeps_lastTimeRecorded :
    sampleItem 1000 0
        (⟨LE_OK, (42 : ℤ), LE_OK, LE_OK,
          fun a b => decide (LightSensorThreshold a b)⟩ : TickItemInput ℤ)
        ⟨0, 0, 0, 0⟩
      = (⟨42, 42, 0, 1000⟩, true, some (1000, 42)) ∧
    (sampleItem 1000 0
        (⟨LE_OK, (42 : ℤ), LE_OK, LE_OK,
          fun a b => decide (LightSensorThreshold a b)⟩ : TickItemInput ℤ)
        ⟨0, 0, 0, 0⟩).1.lastTimeRecorded = 0 := by
  decide

/-- C1: the claim is right and the code is wrong: the rate-limit comparison
`(now - LastTimePublished) < MinIntervalBetweenPublish` compares the elapsed
milliseconds against the unscaled constant `10` (the `* 1000` applied to
`MaxIntervalBetweenPublish` and `TimeToStale` is missing), so a tick at
`now = 105000` ms — only 5000 ms, i.e. 5 s, after the last successful flush
at `LastTimePublished = 100000` ms — flushes immediately (the resulting
state has `LastTimePublished = 105000` and no deferral), although
5000 ms is less than the documented 10 s minimum interval. -/
theorem c1_flush_5s_after_publish :
    SampleTimerHandler 105000
        [(⟨LE_OK, (500 : ℤ), LE_OK, LE_OK,
          fun a b => decide (LightSensorThreshold a b)⟩ : TickItemInput ℤ)]
        LE_OK ⟨[⟨0, 0, 50000, 99000⟩], false, 100000⟩
      = ⟨[⟨500, 500, 50000, 105000⟩], false, 105000⟩ ∧
    sub64 105000 100000 = 5000 ∧
    (5000 : ℕ) < MinIntervalBetweenPublish * 1000 := by
  decide

/-- C3 counterexample: a descriptor that has been recorded before
(`lastTimeRecorded = 500 ≠ 0`) whose reading (150, against last recorded
100) does not cross the light threshold but whose max-interval force
condition holds (`sub64 200000 500 > 120 * 1000` and `lastTimeRead >
LastTimePublished`) is NOT recorded by the sampling pass (record-call
event `none`, `lastValueRecorded` stays 100); the pass only turns the
publish flag on.  This refutes the claim's "recorded again if ... the
max-interval force condition holds" direction. -/
theorem c3_counterexample :
    sampleItem 200000 150000
        (⟨LE_OK, (150 : ℤ), LE_OK, LE_OK,
          fun a b => decide (LightSensorThreshold a b)⟩ : TickItemInput ℤ)
        ⟨0, 100, 500, 1000⟩
      = (⟨150, 100, 500, 200000⟩, true, none) ∧
    decide (LightSensorThreshold 150 100) = false ∧
    (500 : ℕ) ≠ 0 ∧
    sub64 200000 500 > MaxIntervalBetweenPublish * 1000 ∧
    (200000 : ℕ) > 150000 := by
  decide

/-- C5 counterexample: a tick at `now = 200000` where the descriptor's read
fails (so `lastTimeRead` stays 70000), the staleness condition holds
(`sub64 200000 1000 > 60 * 1000` and `70000 > 1000`), and the sweep's
record succeeds: the flush happens, and the sweep sets the descriptor's
`lastTimeRecorded` to `lastTimeRead = 70000`, NOT to `now = 200000` as the
claim states. -/
theorem c5_counterexample :
    SampleTimerHandler 200000
        [(⟨LE_FAULT, (0 : ℤ), LE_OK, LE_OK,
          fun a b => decide (LightSensorThreshold a b)⟩ : TickItemInput ℤ)]
        LE_OK ⟨[⟨42, 7, 1000, 70000⟩], false, 60000⟩
      = ⟨[⟨42, 42, 70000, 70000⟩], false, 200000⟩ ∧
    sub64 200000 1000 > TimeToStale * 1000 ∧ (70000 : ℕ) > 1000 ∧
    (70000 : ℕ) ≠ 200000 := by
  decide

/-- C3 (amended): once a descriptor has been recorded (nonzero
`lastTimeRecorded`), the sampling pass issues a record call for it exactly
when its `thresholdCheck` holds of (new reading, last recorded value) —
which by C10's symmetry is `exceedsThreshold(lastRecorded, lastRead)`.
The statement holds for every `now` and `LastTimePublished`, so the
max-interval force condition (which only turns the publish flag on) plays
no part in the record decision. -/
theorem c3_record_iff_threshold {V : Type} (now ltp : ℕ)
    (inp : TickItemInput V) (it : ItemSt V)
    (h0 : it.lastTimeRecorded ≠ 0) (hR : inp.readResult = LE_OK) :
    ((sampleItem now ltp inp it).2.2).isSome
      = inp.thresholdCheck inp.readValue it.lastValueRecorded := by
  by_cases ht : inp.thresholdCheck inp.readValue it.lastValueRecorded = true
  · by_cases hrec : inp.recordResult = LE_OK
    · simp [sampleItem, samplePass, hR, ht, hrec]
    · simp [sampleItem, samplePass, hR, ht, hrec]
  · simp [sampleItem, samplePass, hR, h0, ht]

/-- C3 witness: the amended statement at a concrete input whose threshold
check passes. -/
theorem c3_witness :
    (500 : ℕ) ≠ 0 ∧
    ((sampleItem 1000 0
        (⟨LE_OK, (777 : ℤ), LE_OK, LE_OK,
          fun a b => decide (LightSensorThreshold a b)⟩ : TickItemInput ℤ)
        ⟨0, 0, 500, 0⟩).2.2).isSome
      = (⟨LE_OK, (777 : ℤ), LE_OK, LE_OK,
          fun a b => decide (LightSensorThreshold a b)⟩ :
            TickItemInput ℤ).thresholdCheck 777 0 :=
  ⟨by decide,
    c3_record_iff_threshold 1000 0
      (⟨LE_OK, (777 : ℤ), LE_OK, LE_OK,
        fun a b => decide (LightSensorThreshold a b)⟩ : TickItemInput ℤ)
      ⟨0, 0, 500, 0⟩ (by decide) rfl⟩

/-- C5 (amended): in the staleness sweep, for a descriptor with
`(now - lastTimeRecorded) > TimeToStale * 1000` and
`lastTimeRead > lastTimeRecorded`, the sweep calls `record` with the
descriptor's `lastValueRead` at timestamp `lastTimeRead`; on success it
copies `lastValueRead` into `lastValueRecorded` and sets
`lastTimeRecorded := lastTimeRead` (the record's timestamp, not `now`); on
failure the descriptor's state is left unchanged. -/
theorem c5_sweep_behavior {V : Type} (now : ℕ) (inp : TickItemInput V)
    (it : ItemSt V)
    (h1 : sub64 now it.lastTimeRecorded > TimeToStale * 1000)
    (h2 : it.lastTimeRead > it.lastTimeRecorded) :
    (staleSweepItem now inp it).2 = some (it.lastTimeRead, it.lastValueRead) ∧
    (inp.staleRecordResult = LE_OK →
      (staleSweepItem now inp it).1
        = { it with lastValueRecorded := it.lastValueRead, lastTimeRecorded := it.lastTimeRead }) ∧
    (inp.staleRecordResult ≠ LE_OK → (staleSweepItem now inp it).1 = it) := by
  unfold staleSweepItem
  rw [if_pos ⟨h1, h2⟩]
  by_cases hrec : inp.staleRecordResult = LE_OK
  · rw [if_pos hrec]
    exact ⟨rfl, fun _ => rfl, fun h => absurd hrec h⟩
  · rw [if_neg hrec]
    exact ⟨rfl, fun h => absurd h hrec, fun _ => rfl⟩

/-- C5 witness: the sweep behaviour at a concrete stale descriptor. -/
theorem c5_witness :
    sub64 200000 1000 > TimeToStale * 1000 ∧ (70000 : ℕ) > 1000 ∧
    (staleSweepItem 200000
        (⟨LE_FAULT, (0 : ℤ), LE_OK, LE_OK,
          fun a b => decide (LightSensorThreshold a b)⟩ : TickItemInput ℤ)
        ⟨42, 7, 1000, 70000⟩).2 = some (70000, 42) :=
  ⟨by decide, by decide,
    (c5_sweep_behavior 200000
      (⟨LE_FAULT, (0 : ℤ), LE_OK, LE_OK,
        fun a b => decide (LightSensorThreshold a b)⟩ : TickItemInput ℤ)
      ⟨42, 7, 1000, 70000⟩ (by decide) (by decide)).1⟩

/-- C6: when the scheduler reaches the flush (a publish is wanted or was
deferred, and the rate-limit comparison does not fire): on push success
(`LE_OK`) it sets `LastTimePublished = now` and clears `DeferredPublish`;
on push failure it leaves both `LastTimePublished` and `DeferredPublish`
unchanged. -/
theorem c6_flush_outcome {V : Type} (now : ℕ)
    (inputs : List (TickItemInput V)) (pushResult : LeResult)
    (st : PubState V)
    (hWant : (tickPass now st.LastTimePublished inputs st.items).any
        (fun p => p.2.1) = true ∨ st.DeferredPublish = true)
    (hMin : ¬ sub64 now st.LastTimePublished < MinIntervalBetweenPublish) :
    (pushResult = LE_OK →
      (SampleTimerHandler now inputs pushResult st).LastTimePublished = now ∧
      (SampleTimerHandler now inputs pushResult st).DeferredPublish = false) ∧
    (pushResult ≠ LE_OK →
      (SampleTimerHandler now inputs pushResult st).LastTimePublished
          = st.LastTimePublished ∧
      (SampleTimerHandler now inputs pushResult st).DeferredPublish
          = st.DeferredPublish) := by
  have hcond : ((tickPass now st.LastTimePublished inputs st.items).any
      (fun p => p.2.1) || st.DeferredPublish) = true := by
    rcases hWant with h | h
    · rw [h]; rfl
    · rw [h, Bool.or_true]
  constructor
  · intro hp
    constructor <;> simp [SampleTimerHandler, hcond, hMin, hp]
  · intro hp
    constructor <;> simp [SampleTimerHandler, hcond, hMin, hp]

/-- C6 witness: the flush outcome at a concrete state with a deferred
publish pending and the rate limit elapsed. -/
theorem c6_witness :
    ((tickPass 105000 100000 ([] : List (TickItemInput ℤ)) []).any
        (fun p => p.2.1) = true ∨ true = true) ∧
    ¬ sub64 105000 100000 < MinIntervalBetweenPublish ∧
    (SampleTimerHandler 105000 ([] : List (TickItemInput ℤ)) LE_OK
        ⟨[], true, 100000⟩).LastTimePublished = 105000 :=
  ⟨Or.inr rfl, by decide,
    ((c6_flush_outcome 105000 ([] : List (TickItemInput ℤ)) LE_OK
      ⟨[], true, 100000⟩ (Or.inr rfl) (by decide)).1 rfl).1⟩

/-- C7: a descriptor that has never been recorded (`lastTimeRecorded = 0`)
has its first successful read recorded: the sampling pass issues the
record call (at timestamp `now`, for the value just read) whatever the
item's `thresholdCheck` function is — the statement is universally
quantified over the input bundle, so the threshold check is not consulted
— and on record success `lastValueRecorded` becomes the value read. -/
theorem c7_first_sample_recorded {V : Type} (now ltp : ℕ)
    (inp : TickItemInput V) (it : ItemSt V)
    (h0 : it.lastTimeRecorded = 0) (hR : inp.readResult = LE_OK) :
    (sampleItem now ltp inp it).2.2 = some (now, inp.readValue) ∧
    (inp.recordResult = LE_OK →
      (sampleItem now ltp inp it).1.lastValueRecorded = inp.readValue) := by
  by_cases hrec : inp.recordResult = LE_OK
  · constructor <;> simp [sampleItem, samplePass, hR, h0, hrec]
  · constructor
    · simp [sampleItem, samplePass, hR, h0, hrec]
    · intro h; exact absurd h hrec

/-- C7 witness: the first-sample rule at a concrete input whose threshold
function always answers `false` — the value is recorded anyway. -/
theorem c7_witness :
    ((⟨0, 0, 0, 0⟩ : ItemSt ℤ).lastTimeRecorded = 0) ∧
    (sampleItem 1000 0
        (⟨LE_OK, (5 : ℤ), LE_OK, LE_OK, fun _ _ => false⟩ : TickItemInput ℤ)
        ⟨0, 0, 0, 0⟩).2.2 = some (1000, 5) :=
  ⟨rfl,
    (c7_first_sample_recorded 1000 0
      (⟨LE_OK, (5 : ℤ), LE_OK, LE_OK, fun _ _ => false⟩ : TickItemInput ℤ)
      ⟨0, 0, 0, 0⟩ rfl rfl).1⟩

/-- C9: each composite record operation (acceleration, angular velocity,
location) equals the spec's sequential append `recordSeq` over its fixed,
ordered entry list — one entry per sub-field, aborting the remaining
sub-fields at the first failed append and surfacing that first error — and
`recordSeq` never removes already-appended entries (the result batch always
extends the input batch). -/
theorem c9_composite_record :
    (∀ (oracle : ℕ → LeResult) (ts : ℕ) (v : Acceleration) (batch : List Entry),
      AccelerometerRecord oracle ts v batch
        = recordSeq oracle 0
            [("MangOH.Sensors.Accelerometer.Acceleration.X", ts, v.x),
             ("MangOH.Sensors.Accelerometer.Acceleration.Y", ts, v.y),
             ("MangOH.Sensors.Accelerometer.Acceleration.Z", ts, v.z)] batch) ∧
    (∀ (oracle : ℕ → LeResult) (ts : ℕ) (v : Gyro) (batch : List Entry),
      GyroRecord oracle ts v batch
        = recordSeq oracle 0
            [("MangOH.Sensors.Accelerometer.Gyro.X", ts, v.x),
             ("MangOH.Sensors.Accelerometer.Gyro.Y", ts, v.y),
             ("MangOH.Sensors.Accelerometer.Gyro.Z", ts, v.z)] batch) ∧
    (∀ (oracle : ℕ → LeResult) (ts : ℕ) (v : Location3d) (batch : List Entry),
      GpsRecord oracle ts v batch
        = recordSeq oracle 0
            [("lwm2m.6.0.0", ts, v.latitude),
             ("lwm2m.6.0.1", ts, v.longitude),
             ("lwm2m.6.0.3", ts, v.hAccuracy),
             ("lwm2m.6.0.2", ts, v.altitude),
             ("lwm2m.6.0.MangOH.Sensors.Gps.VerticalAccuracy", ts,
               v.vAccuracy)] batch) ∧
    (∀ (oracle : ℕ → LeResult) (k : ℕ) (entries batch : List Entry),
      ∃ t, (recordSeq oracle k entries batch).2 = batch ++ t) := by
  refine ⟨?_, ?_, ?_, ?_⟩
  · intro oracle ts v batch
    by_cases h0 : oracle 0 = LE_OK <;> by_cases h1 : oracle 1 = LE_OK <;>
      by_cases h2 : oracle 2 = LE_OK <;>
        simp [AccelerometerRecord, recordFloat, recordSeq, h0, h1, h2]
  · intro oracle ts v batch
    by_cases h0 : oracle 0 = LE_OK <;> by_cases h1 : oracle 1 = LE_OK <;>
      by_cases h2 : oracle 2 = LE_OK <;>
        simp [GyroRecord, recordFloat, recordSeq, h0, h1, h2]
  · intro oracle ts v batch
    by_cases h0 : oracle 0 = LE_OK <;> by_cases h1 : oracle 1 = LE_OK <;>
      by_cases h2 : oracle 2 = LE_OK <;> by_cases h3 : oracle 3 = LE_OK <;>
        by_cases h4 : oracle 4 = LE_OK <;>
          simp [GpsRecord, recordFloat, recordSeq, h0, h1, h2, h3, h4]
  · intro oracle k entries batch
    induction entries generalizing k batch with
    | nil => exact ⟨[], by simp [recordSeq]⟩
    | cons e es ih =>
      by_cases h : oracle k = LE_OK
      · obtain ⟨t, ht⟩ := ih (k + 1) (batch ++ [e])
        refine ⟨e :: t, ?_⟩
        rw [recordSeq, if_pos h, ht]
        simp
      · exact ⟨[], by simp [recordSeq, h]⟩

end AvPublisher
